import Mathlib

/-!
Shallow embedding of `src/budget_estimation.py` (class `BudgetEstimator`).

Python dictionaries with optional keys become structures with `Option`
fields; `dict.get(key, default)` becomes `Option.getD`.  A sub-record that
is absent, or present but empty (both falsy in Python), is modelled as
`none`.  Python numbers become `ℚ` (the rate tables mix ints and floats
such as `0.15`; all arithmetic in the source is exact on these values).
The nested rate dictionaries become association lists looked up with
`List.lookup`, mirroring the two chained `.get` calls of the source.
-/

namespace BudgetEstimation

/-- Python's `str.lower()` (ASCII case-folding; every string the rate tables
and keyword lists compare against is ASCII). -/
def pyLower (s : String) : String :=
  String.mk (s.data.map Char.toLower)

/-- `needle` occurs as a contiguous run inside the list. -/
def listContains (needle : List Char) : List Char → Bool
  | [] => needle.isEmpty
  | c :: rest => needle.isPrefixOf (c :: rest) || listContains needle rest

/-- Python's substring test `w in s` (on the code points of the strings). -/
def strContains (s w : String) : Bool :=
  listContains w.toList s.toList

/-- `accommodation` sub-record: `{"type": ..., "quality": ...}`, each key optional. -/
structure Accommodation where
  type? : Option String
  quality? : Option String
deriving DecidableEq

/-- `transportation` sub-record: `{"type": ..., "distance": ..., "quality": ...}`. -/
structure Transportation where
  type? : Option String
  distance? : Option ℚ
  quality? : Option String
deriving DecidableEq

/-- one activity record: `{"type": ..., "duration": ..., "quality": ...}`. -/
structure Activity where
  type? : Option String
  duration? : Option ℚ
  quality? : Option String
deriving DecidableEq

/-- the travel-plan input record; every key is optional. -/
structure TravelPlan where
  destination? : Option String
  duration? : Option Int
  activities? : Option (List Activity)
  accommodation? : Option Accommodation
  transportation? : Option Transportation
deriving DecidableEq

/-- the budget-breakdown output record. -/
structure BudgetBreakdown where
  accommodation : ℚ
  transportation : ℚ
  activities : ℚ
  food : ℚ
  miscellaneous : ℚ
  total : ℚ
deriving DecidableEq

/-- nightly rates by accommodation type and quality (`rates` in
`_estimate_accommodation_cost`). -/
def accommodationRates : List (String × List (String × ℚ)) :=
  [("hotel", [("budget", 50), ("medium", 100), ("luxury", 200)]),
   ("hostel", [("budget", 20), ("medium", 30), ("luxury", 50)]),
   ("apartment", [("budget", 70), ("medium", 120), ("luxury", 250)]),
   ("vacation_rental", [("budget", 80), ("medium", 150), ("luxury", 300)]),
   ("resort", [("budget", 100), ("medium", 200), ("luxury", 400)])]

/-- `_estimate_accommodation_cost(accommodation, duration)`. -/
def _estimate_accommodation_cost (accommodation : Option Accommodation)
    (duration : Int) : ℚ :=
  match accommodation with
  | none => 0
  | some a =>
    let accommodation_type := pyLower (a.type?.getD "hotel")
    let quality := pyLower (a.quality?.getD "medium")
    let default_rate := (accommodationRates.lookup "hotel").getD [("medium", 100)]
    let rate :=
      (((accommodationRates.lookup accommodation_type).getD default_rate).lookup
        quality).getD 100
    rate * duration

/-- per-distance-unit rates by transportation type and quality (`rates` in
`_estimate_transportation_cost`). -/
def transportationRates : List (String × List (String × ℚ)) :=
  [("flight", [("economy", 0.15), ("business", 0.30), ("first", 0.50)]),
   ("train", [("economy", 0.10), ("business", 0.20), ("first", 0.30)]),
   ("bus", [("economy", 0.05), ("business", 0.08), ("first", 0.12)]),
   ("car", [("economy", 0.25), ("business", 0.35), ("first", 0.50)])]

/-- `_estimate_transportation_cost(transportation)`. -/
def _estimate_transportation_cost (transportation : Option Transportation) : ℚ :=
  match transportation with
  | none => 0
  | some t =>
    let transportation_type := pyLower (t.type?.getD "flight")
    let distance := t.distance?.getD 0
    let quality := pyLower (t.quality?.getD "economy")
    let default_rate := (transportationRates.lookup "flight").getD [("economy", 0.15)]
    let rate :=
      (((transportationRates.lookup transportation_type).getD default_rate).lookup
        quality).getD 0.15
    rate * distance

/-- per-activity rates by activity type and quality (`rates` in the loop body
of `_estimate_activity_cost`; the dictionary is a constant, its binding inside
the loop notwithstanding). -/
def activityRates : List (String × List (String × ℚ)) :=
  [("sightseeing", [("free", 0), ("standard", 15), ("premium", 30)]),
   ("museum", [("free", 0), ("standard", 20), ("premium", 40)]),
   ("adventure", [("standard", 50), ("premium", 100)]),
   ("cultural", [("standard", 25), ("premium", 50)]),
   ("entertainment", [("standard", 30), ("premium", 60)]),
   ("shopping", [("standard", 50), ("premium", 100)]),
   ("dining", [("standard", 40), ("premium", 80)])]

/-- the rate one iteration of the loop in `_estimate_activity_cost` adds to
`total_cost` (the loop also binds `duration = activity.get("duration", 2)`,
which it never reads). -/
def activityRate (activity : Activity) : ℚ :=
  let activity_type := pyLower (activity.type?.getD "sightseeing")
  let _duration := activity.duration?.getD 2
  let quality := pyLower (activity.quality?.getD "standard")
  let default_rate := (activityRates.lookup "sightseeing").getD [("standard", 15)]
  (((activityRates.lookup activity_type).getD default_rate).lookup quality).getD 15

/-- `_estimate_activity_cost(activities)`. -/
def _estimate_activity_cost (activities : List Activity) : ℚ :=
  match activities with
  | [] => 0
  | _ => activities.foldl (fun total_cost activity => total_cost + activityRate activity) 0

/-- `_estimate_food_cost(destination, duration)`. -/
def _estimate_food_cost (destination : String) (duration : Int) : ℚ :=
  let destination_factor : ℚ :=
    if ["europe", "usa", "canada", "australia"].any
        (fun word => strContains (pyLower destination) word) then 1.5
    else if ["asia", "south america", "africa"].any
        (fun word => strContains (pyLower destination) word) then 0.7
    else 1.0
  let daily_food_cost := 40 * destination_factor
  daily_food_cost * duration

/-- `_estimate_miscellaneous_cost(destination, duration)` (the destination is
accepted and unread). -/
def _estimate_miscellaneous_cost (_destination : String) (duration : Int) : ℚ :=
  20 * duration

/-- `estimate_budget(travel_plan)`. -/
def estimate_budget (travel_plan : TravelPlan) : BudgetBreakdown :=
  let destination := travel_plan.destination?.getD ""
  let duration := travel_plan.duration?.getD 0
  let activities := travel_plan.activities?.getD []
  let accommodation := travel_plan.accommodation?
  let transportation := travel_plan.transportation?
  let accommodationCost := _estimate_accommodation_cost accommodation duration
  let transportationCost := _estimate_transportation_cost transportation
  let activityCost := _estimate_activity_cost activities
  let foodCost := _estimate_food_cost destination duration
  let miscellaneousCost := _estimate_miscellaneous_cost destination duration
  { accommodation := accommodationCost
    transportation := transportationCost
    activities := activityCost
    food := foodCost
    miscellaneous := miscellaneousCost
    total := List.sum
      [accommodationCost, transportationCost, activityCost, foodCost, miscellaneousCost] }

/-- a JSON value, the result type of Python's `json.loads`. -/
inductive Json where
  | null : Json
  | bool (b : Bool) : Json
  | num (q : ℚ) : Json
  | str (s : String) : Json
  | arr (elements : List Json) : Json
  | obj (members : List (String × Json)) : Json

/-- the prompt built by `refine_budget_with_llm`; `json_dumps` stands for the
serialization `json.dumps(..., indent=2)` of the two embedded records. -/
def refinePrompt (json_dumps : Json → String) (travel_plan initial_budget : Json) : String :=
  "\n        Given the following travel plan:\n        " ++ json_dumps travel_plan ++
  "\n\n        And the initial budget estimation:\n        " ++ json_dumps initial_budget ++
  "\n\n        Please provide a more accurate budget estimation considering:\n" ++
  "        1. Current market prices for the destination\n" ++
  "        2. Seasonal variations\n" ++
  "        3. Specific accommodation and transportation details\n" ++
  "        4. Activity costs\n" ++
  "        5. Food and miscellaneous expenses\n\n" ++
  "        Return the refined budget in the same JSON format.\n        "

/-- `refine_budget_with_llm(travel_plan, initial_budget)`.  The external
collaborators are parameters: `call_llm` (`utils.llm_utils.call_llm`, which may
raise) and `json_loads` (`json.loads`, which raises on malformed text).  The
`try`/`except` of the source becomes the two `error` branches, both returning
`initial_budget` (the `except` body also logs, a side effect with no bearing
on the returned value). -/
def refine_budget_with_llm (call_llm : String → Except String String)
    (json_loads : String → Except String Json) (json_dumps : Json → String)
    (travel_plan initial_budget : Json) : Json :=
  let prompt := refinePrompt json_dumps travel_plan initial_budget
  match call_llm prompt with
  | Except.error _ => initial_budget
  | Except.ok refined_budget =>
    match json_loads refined_budget with
    | Except.error _ => initial_budget
    | Except.ok parsed => parsed

/-- Modelled from the spec: the two-level fallback lookup policy of §4.1 —
the rate is looked up by (type, quality); an unknown type resolves to the
`fallbackType` table, and an unknown quality within the resolved table
resolves to `defaultRate`. -/
def lookupRateSpec (rateTable : List (String × List (String × ℚ)))
    (fallbackType : String) (defaultRate : ℚ) (rtype quality : String) : ℚ :=
  let table :=
    match rateTable.lookup rtype with
    | some t => t
    | none => (rateTable.lookup fallbackType).getD []
  match table.lookup quality with
  | some r => r
  | none => defaultRate

/-- Modelled from the spec: the destination multiplier of §4.1 — 1.5 if the
destination text contains (case-insensitively) a word of the Europe/USA group,
tested first; else 0.7 if it contains a word of the Asia group; else 1. -/
def destinationFactorSpec (destination : String) : ℚ :=
  if ∃ w ∈ ["europe", "usa", "canada", "australia"],
      strContains (pyLower destination) w = true then 1.5
  else if ∃ w ∈ ["asia", "south america", "africa"],
      strContains (pyLower destination) w = true then 0.7
  else 1

/-- the hardcoded example plan of `main()`. -/
def parisExamplePlan : TravelPlan :=
  { destination? := some "Paris, France"
    duration? := some 7
    activities? := some
      [{ type? := some "museum", duration? := none, quality? := some "standard" },
       { type? := some "sightseeing", duration? := none, quality? := some "standard" },
       { type? := some "dining", duration? := none, quality? := some "premium" }]
    accommodation? := some { type? := some "hotel", quality? := some "medium" }
    transportation? := some
      { type? := some "flight", distance? := some 3600, quality? := some "economy" } }

/-- a collaborator whose call fails (a network error, say). -/
def llmUnavailable : String → Except String String :=
  fun _ => Except.error "network error"

/-- a `json.loads` that rejects its input as malformed. -/
def jsonLoadsFailing : String → Except String Json :=
  fun _ => Except.error "Expecting value: line 1 column 1 (char 0)"

/-- a serialization stub for instantiating `refine_budget_with_llm`. -/
def jsonDumpsStub : Json → String :=
  fun _ => ""

/-- a value found by `List.lookup` satisfies any property all values of the
association list satisfy. -/
theorem lookup_value_prop {β : Type} (P : β → Prop) :
    ∀ (l : List (String × β)), (∀ p ∈ l, P p.2) →
      ∀ (k : String) (v : β), l.lookup k = some v → P v := by
  intro l
  induction l with
  | nil => intro _ k v hv; simp [List.lookup] at hv
  | cons p tl ih =>
    intro h k v hv
    simp only [List.lookup] at hv
    split at hv
    · injection hv with hv2
      exact hv2 ▸ h p (List.mem_cons_self p tl)
    · exact ih (fun q hq => h q (List.mem_cons_of_mem p hq)) k v hv

/-- `(l.lookup k).getD d` satisfies any property all values of `l` and the
default `d` satisfy. -/
theorem lookup_getD_prop {β : Type} (P : β → Prop) (l : List (String × β))
    (h : ∀ p ∈ l, P p.2) (d : β) (hd : P d) (k : String) :
    P ((l.lookup k).getD d) := by
  cases hv : l.lookup k with
  | none => simpa using hd
  | some v => simpa using lookup_value_prop P l h k v hv

/-- the two chained `.get` calls of the estimators preserve any property all
table entries, the fallback table and the default rate satisfy. -/
theorem two_level_lookup_prop (P : ℚ → Prop)
    (outer : List (String × List (String × ℚ)))
    (houter : ∀ t ∈ outer, ∀ p ∈ t.2, P p.2)
    (dtbl : List (String × ℚ)) (hdtbl : ∀ p ∈ dtbl, P p.2)
    (ddef : ℚ) (hddef : P ddef) (k q : String) :
    P ((((outer.lookup k).getD dtbl).lookup q).getD ddef) :=
  lookup_getD_prop P _
    (lookup_getD_prop (fun tbl => ∀ p ∈ tbl, P p.2) outer houter dtbl hdtbl k)
    ddef hddef q

/-- every nightly accommodation rate is non-negative. -/
theorem accommodationRates_nonneg :
    ∀ t ∈ accommodationRates, ∀ p ∈ t.2, (0:ℚ) ≤ p.2 := by
  decide

/-- every per-activity rate is non-negative. -/
theorem activityRates_nonneg : ∀ t ∈ activityRates, ∀ p ∈ t.2, (0:ℚ) ≤ p.2 := by
  decide

/-- every per-distance-unit transportation rate is non-negative. -/
theorem transportationRates_nonneg :
    ∀ t ∈ transportationRates, ∀ p ∈ t.2, (0:ℚ) ≤ p.2 := by
  intro t ht
  fin_cases ht <;> (intro p hp; fin_cases hp) <;> norm_num

/-- accommodation cost is non-negative whenever the duration is. -/
theorem accommodation_cost_nonneg (a : Option Accommodation) (d : Int) (hd : 0 ≤ d) :
    0 ≤ _estimate_accommodation_cost a d := by
  cases a with
  | none => simp [_estimate_accommodation_cost]
  | some a =>
    simp only [_estimate_accommodation_cost]
    apply mul_nonneg
    · exact two_level_lookup_prop (fun r => 0 ≤ r) accommodationRates
        accommodationRates_nonneg _
        (lookup_getD_prop (fun tbl => ∀ p ∈ tbl, (0:ℚ) ≤ p.2)
          accommodationRates accommodationRates_nonneg
          [("medium", 100)] (by decide) "hotel") 100 (by norm_num) _ _
    · exact_mod_cast hd

/-- transportation cost is non-negative whenever the distance is. -/
theorem transportation_cost_nonneg (t : Option Transportation)
    (hd : ∀ r, t = some r → 0 ≤ r.distance?.getD 0) :
    0 ≤ _estimate_transportation_cost t := by
  cases t with
  | none => simp [_estimate_transportation_cost]
  | some r =>
    simp only [_estimate_transportation_cost]
    apply mul_nonneg
    · exact two_level_lookup_prop (fun x => 0 ≤ x) transportationRates
        transportationRates_nonneg _
        (lookup_getD_prop (fun tbl => ∀ p ∈ tbl, (0:ℚ) ≤ p.2)
          transportationRates transportationRates_nonneg
          [("economy", 0.15)] (by intro p hp; fin_cases hp; norm_num) "flight")
        0.15 (by norm_num) _ _
    · exact hd r rfl

/-- every single activity contributes a non-negative rate. -/
theorem activityRate_nonneg (a : Activity) : 0 ≤ activityRate a := by
  simp only [activityRate]
  exact two_level_lookup_prop (fun r => 0 ≤ r) activityRates
    activityRates_nonneg _
    (lookup_getD_prop (fun tbl => ∀ p ∈ tbl, (0:ℚ) ≤ p.2)
      activityRates activityRates_nonneg
      [("standard", 15)] (by decide) "sightseeing") 15 (by norm_num) _ _

/-- unrolling the accumulator of the activity loop. -/
theorem foldl_activity_eq (l : List Activity) :
    ∀ c : ℚ, l.foldl (fun total_cost a => total_cost + activityRate a) c
      = c + (l.map activityRate).sum := by
  induction l with
  | nil => intro c; simp
  | cons a tl ih => intro c; simp [List.foldl, ih, add_assoc]

/-- the activity loop computes the sum of the per-activity rates. -/
theorem activity_cost_eq_sum (l : List Activity) :
    _estimate_activity_cost l = (l.map activityRate).sum := by
  cases l with
  | nil => simp [_estimate_activity_cost]
  | cons a tl =>
    simp only [_estimate_activity_cost, foldl_activity_eq, List.map_cons, zero_add]

/-- the activities cost is non-negative for every activity list. -/
theorem activity_cost_nonneg (l : List Activity) : 0 ≤ _estimate_activity_cost l := by
  rw [activity_cost_eq_sum]
  apply List.sum_nonneg
  intro x hx
  rcases List.mem_map.mp hx with ⟨a, _, rfl⟩
  exact activityRate_nonneg a

/-- food cost is non-negative whenever the duration is. -/
theorem food_cost_nonneg (dest : String) (d : Int) (hd : 0 ≤ d) :
    0 ≤ _estimate_food_cost dest d := by
  simp only [_estimate_food_cost]
  have hcast : (0:ℚ) ≤ (d:ℚ) := by exact_mod_cast hd
  split_ifs <;> apply mul_nonneg (by norm_num) hcast

/-- miscellaneous cost is non-negative whenever the duration is. -/
theorem misc_cost_nonneg (dest : String) (d : Int) (hd : 0 ≤ d) :
    0 ≤ _estimate_miscellaneous_cost dest d := by
  simp only [_estimate_miscellaneous_cost]
  apply mul_nonneg (by norm_num)
  exact_mod_cast hd

/-- the `total` field is the sum of the five category fields. -/
theorem total_eq_sum_of_components (travel_plan : TravelPlan) :
    (estimate_budget travel_plan).total =
      (estimate_budget travel_plan).accommodation +
      (estimate_budget travel_plan).transportation +
      (estimate_budget travel_plan).activities +
      (estimate_budget travel_plan).food +
      (estimate_budget travel_plan).miscellaneous := by
  simp [estimate_budget]
  ring

/-- C1: for every travel plan the breakdown returned by `estimate_budget`
satisfies `total = accommodation + transportation + activities + food +
miscellaneous` exactly; the total is computed from the five fields and never
set independently. -/
theorem estimate_budget_total_invariant (travel_plan : TravelPlan) :
    (estimate_budget travel_plan).total =
      (estimate_budget travel_plan).accommodation +
      (estimate_budget travel_plan).transportation +
      (estimate_budget travel_plan).activities +
      (estimate_budget travel_plan).food +
      (estimate_budget travel_plan).miscellaneous :=
  total_eq_sum_of_components travel_plan

/-- C2: for every plan, initial breakdown and collaborators, if the LLM call
fails, or it succeeds and parsing its response fails, then
`refine_budget_with_llm` returns exactly its `initial_budget` argument (and,
being a total function, it never raises to the caller). -/
theorem refine_budget_with_llm_failure_returns_initial
    (call_llm : String → Except String String)
    (json_loads : String → Except String Json) (json_dumps : Json → String)
    (travel_plan initial_budget : Json) :
    (∀ e, call_llm (refinePrompt json_dumps travel_plan initial_budget) = Except.error e →
      refine_budget_with_llm call_llm json_loads json_dumps travel_plan initial_budget
        = initial_budget) ∧
    (∀ s e, call_llm (refinePrompt json_dumps travel_plan initial_budget) = Except.ok s →
      json_loads s = Except.error e →
      refine_budget_with_llm call_llm json_loads json_dumps travel_plan initial_budget
        = initial_budget) := by
  constructor
  · intro e he
    simp [refine_budget_with_llm, he]
  · intro s e hs hp
    simp [refine_budget_with_llm, hs, hp]

/-- witness for C2: with a failing LLM collaborator, refinement hands back
the initial breakdown value. -/
theorem refine_budget_with_llm_failure_witness :
    refine_budget_with_llm llmUnavailable jsonLoadsFailing jsonDumpsStub Json.null
      (Json.num 1775) = Json.num 1775 :=
  (refine_budget_with_llm_failure_returns_initial llmUnavailable jsonLoadsFailing
    jsonDumpsStub Json.null (Json.num 1775)).1 "network error" rfl

/-- counterexample to C3 as stated: the plan with duration -1 and no other
fields gets a negative food amount (-40), so not every plan's breakdown is
non-negative. -/
theorem estimate_budget_negative_duration_negative_food :
    ¬ (0 ≤ (estimate_budget
        { destination? := some "", duration? := some (-1), activities? := none,
          accommodation? := none, transportation? := none }).food) := by
  have he : (["europe", "usa", "canada", "australia"].any
      (fun word => strContains (pyLower "") word)) = false := by decide
  have ha : (["asia", "south america", "africa"].any
      (fun word => strContains (pyLower "") word)) = false := by decide
  norm_num [estimate_budget, _estimate_food_cost, he, ha]

/-- C3 (amended): for every travel plan whose duration (default 0) is
non-negative and whose transportation distance (default 0) is non-negative,
every amount in the breakdown returned by `estimate_budget` is
non-negative. -/
theorem estimate_budget_nonneg_of_nonneg_inputs (travel_plan : TravelPlan)
    (hdur : 0 ≤ travel_plan.duration?.getD 0)
    (hdist : ∀ t, travel_plan.transportation? = some t → 0 ≤ t.distance?.getD 0) :
    0 ≤ (estimate_budget travel_plan).accommodation ∧
    0 ≤ (estimate_budget travel_plan).transportation ∧
    0 ≤ (estimate_budget travel_plan).activities ∧
    0 ≤ (estimate_budget travel_plan).food ∧
    0 ≤ (estimate_budget travel_plan).miscellaneous ∧
    0 ≤ (estimate_budget travel_plan).total := by
  have h1 : 0 ≤ (estimate_budget travel_plan).accommodation := by
    simp only [estimate_budget]
    exact accommodation_cost_nonneg _ _ hdur
  have h2 : 0 ≤ (estimate_budget travel_plan).transportation := by
    simp only [estimate_budget]
    exact transportation_cost_nonneg _ hdist
  have h3 : 0 ≤ (estimate_budget travel_plan).activities := by
    simp only [estimate_budget]
    exact activity_cost_nonneg _
  have h4 : 0 ≤ (estimate_budget travel_plan).food := by
    simp only [estimate_budget]
    exact food_cost_nonneg _ _ hdur
  have h5 : 0 ≤ (estimate_budget travel_plan).miscellaneous := by
    simp only [estimate_budget]
    exact misc_cost_nonneg _ _ hdur
  refine ⟨h1, h2, h3, h4, h5, ?_⟩
  rw [total_eq_sum_of_components]
  positivity

/-- witness for C3 (amended): the example plan has non-negative duration and
distance, so its whole breakdown is non-negative. -/
theorem estimate_budget_nonneg_witness :
    0 ≤ (estimate_budget parisExamplePlan).accommodation ∧
    0 ≤ (estimate_budget parisExamplePlan).transportation ∧
    0 ≤ (estimate_budget parisExamplePlan).activities ∧
    0 ≤ (estimate_budget parisExamplePlan).food ∧
    0 ≤ (estimate_budget parisExamplePlan).miscellaneous ∧
    0 ≤ (estimate_budget parisExamplePlan).total :=
  estimate_budget_nonneg_of_nonneg_inputs parisExamplePlan (by decide)
    (by intro t ht
        simp only [parisExamplePlan] at ht
        injection ht with h
        subst h
        norm_num)

/-- C4: two activity lists that agree per position on type and quality (and
so can differ only in the duration-hours field) get the same activities
cost; the per-activity duration never affects the result. -/
theorem activity_cost_ignores_duration (l1 l2 : List Activity)
    (h : l1.map (fun a => (a.type?, a.quality?)) = l2.map (fun a => (a.type?, a.quality?))) :
    _estimate_activity_cost l1 = _estimate_activity_cost l2 := by
  rw [activity_cost_eq_sum, activity_cost_eq_sum]
  have key : ∀ l : List Activity, l.map activityRate =
      (l.map (fun a => (a.type?, a.quality?))).map
        (fun pr => activityRate { type? := pr.1, duration? := none, quality? := pr.2 }) := by
    intro l
    rw [List.map_map]
    rfl
  rw [key l1, key l2, h]

/-- witness for C4: two singleton activity lists differing only in
duration-hours (1 versus 99) cost the same. -/
theorem activity_cost_ignores_duration_witness :
    _estimate_activity_cost
      [{ type? := some "museum", duration? := some 1, quality? := some "standard" }]
    = _estimate_activity_cost
      [{ type? := some "museum", duration? := some 99, quality? := some "standard" }] :=
  activity_cost_ignores_duration _ _ rfl

/-- C5: food cost is 40 × factor × duration where the factor is 1.5 if the
lower-cased destination contains a word of the Europe/USA group, else 0.7 if
it contains a word of the Asia group, else 1; and the Europe/USA group is
tested first, so it wins whenever it matches (in particular when both groups
match). -/
theorem food_cost_formula (destination : String) (duration : Int) :
    (_estimate_food_cost destination duration
      = 40 * destinationFactorSpec destination * duration) ∧
    ((∃ w ∈ ["europe", "usa", "canada", "australia"],
        strContains (pyLower destination) w = true) →
      _estimate_food_cost destination duration = 40 * 1.5 * duration) := by
  have e1 := @List.any_eq_true _ (fun word => strContains (pyLower destination) word)
    ["europe", "usa", "canada", "australia"]
  have e2 := @List.any_eq_true _ (fun word => strContains (pyLower destination) word)
    ["asia", "south america", "africa"]
  constructor
  · simp only [_estimate_food_cost, destinationFactorSpec]
    by_cases h1 : (["europe", "usa", "canada", "australia"].any
        (fun word => strContains (pyLower destination) word)) = true
    · rw [if_pos h1, if_pos (e1.mp h1)]
    · rw [if_neg h1, if_neg (fun hc => h1 (e1.mpr hc))]
      by_cases h2 : (["asia", "south america", "africa"].any
          (fun word => strContains (pyLower destination) word)) = true
      · rw [if_pos h2, if_pos (e2.mp h2)]
      · rw [if_neg h2, if_neg (fun hc => h2 (e2.mpr hc))]
        norm_num
  · intro h
    simp only [_estimate_food_cost]
    rw [if_pos (e1.mpr h)]

/-- witness for C5: a destination matching both keyword groups gets the
Europe/USA factor 1.5. -/
theorem food_cost_formula_witness :
    _estimate_food_cost "europe asia" 3 = 40 * 1.5 * ((3:Int):ℚ) :=
  (food_cost_formula "europe asia" 3).2 ⟨"europe", by decide, by decide⟩

/-- C6: an absent or empty accommodation record costs 0, and otherwise the
cost is the nightly rate looked up by the case-folded (type, quality) — with
unknown type falling back to the hotel table and unknown quality to the
default rate 100 — times the duration. -/
theorem accommodation_cost_lookup_policy (duration : Int) :
    _estimate_accommodation_cost none duration = 0 ∧
    ∀ a : Accommodation,
      _estimate_accommodation_cost (some a) duration =
        lookupRateSpec accommodationRates "hotel" 100
          (pyLower (a.type?.getD "hotel")) (pyLower (a.quality?.getD "medium"))
          * duration := by
  refine ⟨rfl, ?_⟩
  intro a
  simp only [_estimate_accommodation_cost, lookupRateSpec]
  have hh : accommodationRates.lookup "hotel" =
      some [("budget", (50:ℚ)), ("medium", 100), ("luxury", 200)] := rfl
  cases ht : accommodationRates.lookup (pyLower (a.type?.getD "hotel")) with
  | some tbl =>
    cases hq : tbl.lookup (pyLower (a.quality?.getD "medium")) with
    | some r => simp [ht, hq]
    | none => simp [ht, hq]
  | none =>
    simp only [ht, hh, Option.getD_some, Option.getD_none]
    cases hq : ([("budget", (50:ℚ)), ("medium", 100), ("luxury", 200)]).lookup
        (pyLower (a.quality?.getD "medium")) with
    | some r => simp [hq]
    | none => simp [hq]

/-- C7: an absent or empty transportation record costs 0; otherwise the cost
is the per-distance-unit rate looked up by the case-folded (type, quality) —
with unknown type falling back to the flight table and unknown quality to the
default rate 0.15 — times the distance; in particular economy flight over
3600 units costs 540. -/
theorem transportation_cost_lookup_policy :
    _estimate_transportation_cost none = 0 ∧
    (∀ t : Transportation,
      _estimate_transportation_cost (some t) =
        lookupRateSpec transportationRates "flight" 0.15
          (pyLower (t.type?.getD "flight")) (pyLower (t.quality?.getD "economy"))
          * t.distance?.getD 0) ∧
    _estimate_transportation_cost
      (some { type? := some "flight", distance? := some 3600,
              quality? := some "economy" }) = 540 := by
  refine ⟨rfl, ?_, ?_⟩
  · intro t
    simp only [_estimate_transportation_cost, lookupRateSpec]
    have hh : transportationRates.lookup "flight" =
        some [("economy", (0.15:ℚ)), ("business", 0.30), ("first", 0.50)] := rfl
    cases ht : transportationRates.lookup (pyLower (t.type?.getD "flight")) with
    | some tbl =>
      cases hq : tbl.lookup (pyLower (t.quality?.getD "economy")) with
      | some r => simp [ht, hq]
      | none => simp [ht, hq]
    | none =>
      simp only [ht, hh, Option.getD_some, Option.getD_none]
      cases hq : ([("economy", (0.15:ℚ)), ("business", 0.30), ("first", 0.50)]).lookup
          (pyLower (t.quality?.getD "economy")) with
      | some r => simp [hq]
      | none => simp [hq]
  · have h : _estimate_transportation_cost
        (some { type? := some "flight", distance? := some 3600,
                quality? := some "economy" }) = 0.15 * 3600 := rfl
    rw [h]
    norm_num

/-- C8: the hardcoded example plan of `main()` — Paris, 7 nights, medium
hotel, economy flight of 3600 units, three activities — yields exactly
accommodation 700, transportation 540, activities 115, food 280,
miscellaneous 140 and total 1775. -/
theorem estimate_budget_paris_example :
    estimate_budget parisExamplePlan =
      { accommodation := 700, transportation := 540, activities := 115,
        food := 280, miscellaneous := 140, total := 1775 } := by
  have h1 : pyLower "hotel" = "hotel" := by decide
  have h2 : pyLower "medium" = "medium" := by decide
  have h3 : pyLower "flight" = "flight" := by decide
  have h4 : pyLower "economy" = "economy" := by decide
  have h5 : pyLower "museum" = "museum" := by decide
  have h6 : pyLower "sightseeing" = "sightseeing" := by decide
  have h7 : pyLower "dining" = "dining" := by decide
  have h8 : pyLower "standard" = "standard" := by decide
  have h9 : pyLower "premium" = "premium" := by decide
  have hb1 : ("medium" == "budget") = false := by decide
  have hb2 : ("standard" == "free") = false := by decide
  have hb3 : ("premium" == "standard") = false := by decide
  have he : (["europe", "usa", "canada", "australia"].any
      (fun word => strContains (pyLower "Paris, France") word)) = false := by decide
  have ha : (["asia", "south america", "africa"].any
      (fun word => strContains (pyLower "Paris, France") word)) = false := by decide
  norm_num [estimate_budget, parisExamplePlan, _estimate_accommodation_cost,
    _estimate_transportation_cost, _estimate_activity_cost, activityRate,
    _estimate_food_cost, _estimate_miscellaneous_cost,
    accommodationRates, transportationRates, activityRates,
    h1, h2, h3, h4, h5, h6, h7, h8, h9, hb1, hb2, hb3, he, ha, List.lookup]

/-- C9: the empty plan — destination defaults to the empty string and
duration to 0 — yields the all-zero breakdown. -/
theorem estimate_budget_empty_plan :
    estimate_budget { destination? := none, duration? := none, activities? := none,
                      accommodation? := none, transportation? := none } =
      { accommodation := 0, transportation := 0, activities := 0, food := 0,
        miscellaneous := 0, total := 0 } := by
  norm_num [estimate_budget, _estimate_accommodation_cost, _estimate_transportation_cost,
    _estimate_activity_cost, _estimate_food_cost, _estimate_miscellaneous_cost,
    strContains, listContains, pyLower, String.toList, List.isPrefixOf]

/-- C10: within a present sub-record a missing field is defaulted by name
before the lookup: a missing accommodation type acts as "hotel" and a missing
quality as "medium" (so a bare resort record costs 200 × duration), a missing
transportation quality acts as "economy", and a missing activity type acts as
"sightseeing" with a missing quality as "standard" (so a bare museum record
contributes 20). -/
theorem subrecord_field_defaults :
    (∀ (q : Option String) (d : Int),
      _estimate_accommodation_cost (some { type? := none, quality? := q }) d =
      _estimate_accommodation_cost (some { type? := some "hotel", quality? := q }) d) ∧
    (∀ (ty : Option String) (d : Int),
      _estimate_accommodation_cost (some { type? := ty, quality? := none }) d =
      _estimate_accommodation_cost (some { type? := ty, quality? := some "medium" }) d) ∧
    (∀ d : Int,
      _estimate_accommodation_cost (some { type? := some "resort", quality? := none }) d
        = 200 * d) ∧
    (∀ (ty : Option String) (dist : Option ℚ),
      _estimate_transportation_cost
          (some { type? := ty, distance? := dist, quality? := none }) =
      _estimate_transportation_cost
          (some { type? := ty, distance? := dist, quality? := some "economy" })) ∧
    (∀ (dur : Option ℚ) (q : Option String) (rest : List Activity),
      _estimate_activity_cost ({ type? := none, duration? := dur, quality? := q } :: rest) =
      _estimate_activity_cost
        ({ type? := some "sightseeing", duration? := dur, quality? := q } :: rest)) ∧
    (∀ (ty : Option String) (dur : Option ℚ) (rest : List Activity),
      _estimate_activity_cost ({ type? := ty, duration? := dur, quality? := none } :: rest) =
      _estimate_activity_cost
        ({ type? := ty, duration? := dur, quality? := some "standard" } :: rest)) ∧
    _estimate_activity_cost
      [{ type? := some "museum", duration? := none, quality? := none }] = 20 := by
  refine ⟨fun q d => rfl, fun ty d => rfl, fun d => rfl, fun ty dist => rfl,
    fun dur q rest => rfl, fun ty dur rest => rfl, ?_⟩
  have h : _estimate_activity_cost
      [{ type? := some "museum", duration? := none, quality? := none }] = 0 + 20 := rfl
  rw [h]
  norm_num

end BudgetEstimation
